import Mathlib

/-!
Shallow embedding of `src/lib/learning-switch.c` (OpenFlow 1.0 learning
switch).  Pure C functions become Lean functions; the session `struct
lswitch` becomes an explicit state record, and the two effects of a call
(state mutation and messages handed to `queue_tx`) become a returned pair
of the new state and the list of emitted messages.  External collaborators
that live outside `src/` (the MAC learning table of `mac-learning.c`, the
codec helpers of `ofp-util.c`, address classification of `packets.h`) are
modelled from the spec, each marked in its doc comment.
-/

set_option autoImplicit false

/-- OpenFlow 1.0 reserved port number `OFPP_MAX`. -/
def OFPP_MAX : Nat := 0xff00

/-- OpenFlow 1.0 reserved port number `OFPP_NORMAL`. -/
def OFPP_NORMAL : Nat := 0xfffa

/-- OpenFlow 1.0 reserved port number `OFPP_FLOOD`. -/
def OFPP_FLOOD : Nat := 0xfffb

/-- OpenFlow 1.0 reserved port number `OFPP_NONE`. -/
def OFPP_NONE : Nat := 0xffff

/-- `UINT32_MAX`, used by the source as the `NONE` sentinel for queue ids and
buffer ids. -/
def UINT32_MAX : Nat := 4294967295

/-- Packet-in reason `OFPR_NO_MATCH` (OpenFlow 1.0). -/
def OFPR_NO_MATCH : Nat := 0

/-- `OFP_DEFAULT_MISS_SEND_LEN` (OpenFlow 1.0). -/
def OFP_DEFAULT_MISS_SEND_LEN : Nat := 128

/-- `sizeof(struct ofp_header)` in the OpenFlow 1.0 wire layout. -/
def OFP_HEADER_SIZE : Nat := 8

/-- `sizeof(struct ofp_switch_features)` in the OpenFlow 1.0 wire layout. -/
def OFP_SWITCH_FEATURES_SIZE : Nat := 32

/-- `sizeof(struct ofp_phy_port)` in the OpenFlow 1.0 wire layout. -/
def OFP_PHY_PORT_SIZE : Nat := 48

/-- `offsetof(struct ofp_packet_in, data)`: the fixed prefix of a packet-in
(8-byte header + 4 + 2 + 2 + 1 + 1 = 18 bytes). -/
def OFP_PACKET_IN_DATA_OFFSET : Nat := 18

/-- `sizeof(struct ofp_flow_removed)` in the OpenFlow 1.0 wire layout. -/
def OFP_FLOW_REMOVED_SIZE : Nat := 88

/-- Wildcard flag `OFPFW_DL_TYPE`. -/
def OFPFW_DL_TYPE : Nat := 16

/-- Wildcard flag `OFPFW_NW_PROTO`. -/
def OFPFW_NW_PROTO : Nat := 32

/-- Wildcard flag `OFPFW_TP_SRC`. -/
def OFPFW_TP_SRC : Nat := 64

/-- Wildcard flag `OFPFW_TP_DST`. -/
def OFPFW_TP_DST : Nat := 128

/-- Wildcard field `OFPFW_NW_SRC_MASK` (bits 8..13). -/
def OFPFW_NW_SRC_MASK : Nat := 0x3f00

/-- Wildcard field `OFPFW_NW_DST_MASK` (bits 14..19). -/
def OFPFW_NW_DST_MASK : Nat := 0xfc000

/-- The wildcard mask built by `lswitch_create` when `exact_flows` is false:
`OFPFW_DL_TYPE | OFPFW_NW_SRC_MASK | OFPFW_NW_DST_MASK | OFPFW_NW_PROTO |
OFPFW_TP_SRC | OFPFW_TP_DST`. -/
def LSWITCH_DEFAULT_WILDCARDS : Nat :=
  OFPFW_DL_TYPE ||| OFPFW_NW_SRC_MASK ||| OFPFW_NW_DST_MASK |||
    OFPFW_NW_PROTO ||| OFPFW_TP_SRC ||| OFPFW_TP_DST

/-- An Ethernet address as six byte values. -/
structure EthAddr where
  b0 : Nat
  b1 : Nat
  b2 : Nat
  b3 : Nat
  b4 : Nat
  b5 : Nat
  deriving DecidableEq, Repr

/-- Modelled from the spec: `eth_addr_is_multicast` of `packets.h` is not
under `src/`; an address is multicast when the low bit of its first octet
is set. -/
def eth_addr_is_multicast (a : EthAddr) : Bool :=
  a.b0 % 2 = 1

/-- Modelled from the spec: `eth_addr_is_zero` of `packets.h` is not under
`src/`; an address is zero when all six octets are zero. -/
def eth_addr_is_zero (a : EthAddr) : Bool :=
  a.b0 = 0 && a.b1 = 0 && a.b2 = 0 && a.b3 = 0 && a.b4 = 0 && a.b5 = 0

/-- Modelled from the spec: `eth_addr_is_reserved` of `packets.h` is not
under `src/`; it recognises the IEEE 802.1D reserved range
01:80:C2:00:00:00/ff:ff:ff:ff:ff:f0. -/
def eth_addr_is_reserved (a : EthAddr) : Bool :=
  a.b0 = 0x01 && a.b1 = 0x80 && a.b2 = 0xc2 && a.b3 = 0 && a.b4 = 0 &&
    Nat.land a.b5 0xf0 = 0

/-- One entry of the MAC learning table: (address, VLAN) maps to a port. -/
structure MacEntry where
  mac : EthAddr
  vlan : Nat
  port : Nat
  deriving DecidableEq, Repr

/-- Modelled from the spec: `mac-learning.c` is not under `src/`.  The table
is the keyed station-to-port map of spec 4.A.  Timestamps, aging, the LRU
capacity bound and the gratuitous-ARP lock are omitted: this core always
passes lock NONE and none of the claims settled here depends on time or on
capacity eviction. -/
abbrev MacTable : Type := List MacEntry

/-- Modelled from the spec: `mac_learning_create` returns an empty table. -/
def mac_learning_create : MacTable := ([] : List MacEntry)

/-- Modelled from the spec: lookup returns the learned port for the key, or
UNKNOWN (encoded as -1, matching the C caller's `int learned_port` and its
`learned_port >= 0` test). -/
def mac_learning_lookup (ml : MacTable) (dst : EthAddr) (vlan : Nat) : Int :=
  match ml with
  | [] => -1
  | e :: rest =>
      if e.mac = dst ∧ e.vlan = vlan then (e.port : Int)
      else mac_learning_lookup rest dst vlan

/-- Helper for `mac_learning_learn` on a learnable source: overwrite the
port of an existing entry for the key (reporting a move when the port
changed), or append a fresh entry. -/
def mac_table_learn_aux (ml : MacTable) (src : EthAddr) (vlan port : Nat) :
    MacTable × Bool :=
  match ml with
  | [] => ([⟨src, vlan, port⟩], false)
  | e :: rest =>
      if e.mac = src ∧ e.vlan = vlan then
        (⟨e.mac, e.vlan, port⟩ :: rest, decide (e.port ≠ port))
      else
        let r := mac_table_learn_aux rest src vlan port
        (e :: r.1, r.2)

/-- Modelled from the spec: `learn(src, vlan, in_port) → moved?` of 4.A.
Refuses to learn multicast or zero source addresses (returns false without
side effect); overwrites an entry seen on a different port and reports the
move; otherwise inserts or refreshes. -/
def mac_learning_learn (ml : MacTable) (src : EthAddr) (vlan port : Nat) :
    MacTable × Bool :=
  if eth_addr_is_multicast src || eth_addr_is_zero src then (ml, false)
  else mac_table_learn_aux ml src vlan port

/-- `struct lswitch_port`: a queue binding.  `port_no = none` models a
nullified `hmap_node`, i.e. a binding not yet in the by-port-number index. -/
structure LswitchPort where
  name : String
  queue_id : Nat
  port_no : Option Nat
  deriving DecidableEq, Repr

/-- `struct lswitch`.  `queue_names` holds every binding (the `shash`); the
by-port-number `hmap` is exactly the bindings whose `port_no` is resolved,
see `queue_numbers`. -/
structure Lswitch where
  max_idle : Int
  datapath_id : Nat
  last_features_request : Int
  ml : Option MacTable
  wildcards : Nat
  action_normal : Bool
  default_queue : Nat
  queue_names : List LswitchPort
  deriving DecidableEq, Repr

/-- The by-port-number index (`sw->queue_numbers`): the bindings whose
`hmap_node` is non-null, i.e. whose `port_no` is resolved. -/
def queue_numbers (sw : Lswitch) : List LswitchPort :=
  sw.queue_names.filter (fun b => b.port_no.isSome)

/-- The flow key fields this module uses (`flow_extract` output). -/
structure FlowKey where
  in_port : Nat
  dl_src : EthAddr
  dl_dst : EthAddr
  deriving DecidableEq, Repr

/-- An OpenFlow action as built in `process_packet_in`. -/
inductive OfpAction where
  | output (port : Nat)
  | enqueue (port : Nat) (queue_id : Nat)
  deriving DecidableEq, Repr

/-- A packet-out message as built by `make_packet_out`. -/
structure PacketOut where
  buffer_id : Nat
  in_port : Nat
  actions : List OfpAction
  packet : List Nat
  deriving DecidableEq, Repr

/-- The outbound messages this module hands to `queue_tx`. -/
inductive OutMsg where
  | featuresRequest
  | setConfig (miss_send_len : Nat)
  | echoReply (xid : Nat) (payload : List Nat)
  | flowMod (flow : FlowKey) (buffer_id : Nat) (idle_timeout : Int)
      (wildcards : Nat) (actions : List OfpAction)
  | packetOut (po : PacketOut)
  deriving DecidableEq, Repr

/-- A parsed features-reply body (`struct ofp_switch_features`): the
datapath id and, per listed `ofp_phy_port`, its port number and name. -/
structure FeaturesReplyMsg where
  datapath_id : Nat
  ports : List (Nat × String)
  deriving DecidableEq, Repr

/-- A parsed packet-in body (`struct ofp_packet_in`): buffer id, ingress
port, reason, the L2 addresses `flow_extract` reads from the embedded
packet, and the raw packet bytes. -/
structure PacketInMsg where
  buffer_id : Nat
  in_port : Nat
  reason : Nat
  pkt_src : EthAddr
  pkt_dst : EthAddr
  data : List Nat
  deriving DecidableEq, Repr

/-- An inbound OpenFlow message: the constructor is the wire type, `size`
is the byte length `msg->size` checked against the dispatch table's
`min_size`, and the remaining fields are what the handler would read once
the size check has passed.  `other` covers every type outside the dispatch
table. -/
inductive InMsg where
  | echoRequest (size : Nat) (xid : Nat) (payload : List Nat)
  | featuresReply (size : Nat) (fr : FeaturesReplyMsg)
  | packetIn (size : Nat) (pi : PacketInMsg)
  | flowRemoved (size : Nat)
  | other (typ : Nat) (size : Nat)
  deriving DecidableEq, Repr

/-- The two message types exempt from the UNKNOWN-state resend guard
(`oh->type != OFPT_ECHO_REQUEST && oh->type != OFPT_FEATURES_REPLY`). -/
def exempt_from_unknown_guard : InMsg → Bool
  | .echoRequest _ _ _ => true
  | .featuresReply _ _ => true
  | _ => false

/-- Configuration snapshot (`struct lswitch_config`). -/
inductive LswMode where
  | hub
  | normal
  | learn
  deriving DecidableEq, Repr

/-- `struct lswitch_config`: the fields `lswitch_create` consumes.
`default_flows` are pre-serialised messages emitted verbatim. -/
structure LswitchConfig where
  mode : LswMode
  max_idle : Int
  exact_flows : Bool
  default_queue : Nat
  port_queues : List (String × Nat)
  default_flows : List OutMsg
  deriving Repr

/-- `send_features_request`: throttled to one per second by
`last_features_request`; emits a features-request then a set-config with
`miss_send_len = OFP_DEFAULT_MISS_SEND_LEN`. -/
def send_features_request (sw : Lswitch) (now : Int) : Lswitch × List OutMsg :=
  if sw.last_features_request + 1 ≤ now then
    ({ sw with last_features_request := now },
     [OutMsg.featuresRequest, OutMsg.setConfig OFP_DEFAULT_MISS_SEND_LEN])
  else
    (sw, [])

/-- `lswitch_create`: builds the session from the configuration, emits a
features-request and set-config (the throttle always passes because
`last_features_request` is seeded to `now - 1`), then emits the configured
default flows verbatim. -/
def lswitch_create (now : Int) (cfg : LswitchConfig) : Lswitch × List OutMsg :=
  let sw : Lswitch :=
    { max_idle := cfg.max_idle
      datapath_id := 0
      last_features_request := now - 1
      ml := if cfg.mode = LswMode.learn then some mac_learning_create else none
      wildcards := if cfg.exact_flows then 0 else LSWITCH_DEFAULT_WILDCARDS
      action_normal := cfg.mode = LswMode.normal
      default_queue := cfg.default_queue
      queue_names := cfg.port_queues.map
        (fun nq => { name := nq.1, queue_id := nq.2, port_no := none }) }
  let r := send_features_request sw now
  (r.1, r.2 ++ cfg.default_flows)

/-- The learning step at the top of `lswitch_choose_destination`: when the
session has a MAC table, learn the source address on the ingress port
(with lock NONE; the move flag only feeds a debug log). -/
def lswitch_learn (sw : Lswitch) (flow : FlowKey) : Lswitch :=
  match sw.ml with
  | some ml =>
      { sw with ml := some (mac_learning_learn ml flow.dl_src 0 flow.in_port).1 }
  | none => sw

/-- `lswitch_choose_destination`: learn the source, drop reserved
multicast destinations, look the destination up (learn mode only) with
split horizon, and finally the source's NORMAL-action check
`sw->action_normal && out_port != OFPP_FLOOD`. -/
def lswitch_choose_destination (sw : Lswitch) (flow : FlowKey) : Lswitch × Nat :=
  let sw1 := lswitch_learn sw flow
  if eth_addr_is_reserved flow.dl_dst then
    (sw1, OFPP_NONE)
  else
    let step : Option Nat :=
      match sw1.ml with
      | some ml =>
          let learned_port := mac_learning_lookup ml flow.dl_dst 0
          if 0 ≤ learned_port then
            if learned_port.toNat = flow.in_port then none
            else some learned_port.toNat
          else some OFPP_FLOOD
      | none => some OFPP_FLOOD
    match step with
    | none => (sw1, OFPP_NONE)
    | some out_port =>
        if sw1.action_normal ∧ out_port ≠ OFPP_FLOOD then (sw1, OFPP_NORMAL)
        else (sw1, out_port)

/-- `get_queue_id`: the queue of the first binding in the by-port-number
index whose `port_no` equals `in_port`, else the session default. -/
def get_queue_id (sw : Lswitch) (in_port : Nat) : Nat :=
  match sw.queue_names.find? (fun b => b.port_no = some in_port) with
  | some b => b.queue_id
  | none => sw.default_queue

/-- The flow `flow_extract` yields for a packet-in: the message's
`in_port` and the packet's L2 addresses. -/
def packet_in_flow (pi : PacketInMsg) : FlowKey :=
  { in_port := pi.in_port, dl_src := pi.pkt_src, dl_dst := pi.pkt_dst }

/-- The action list built in `process_packet_in`: empty for `OFPP_NONE`; a
single OUTPUT when the queue is `UINT32_MAX` or the port is reserved or
virtual (`>= OFPP_MAX`); otherwise a single ENQUEUE. -/
def lswitch_actions (out_port queue_id : Nat) : List OfpAction :=
  if out_port = OFPP_NONE then []
  else if queue_id = UINT32_MAX ∨ OFPP_MAX ≤ out_port then
    [OfpAction.output out_port]
  else
    [OfpAction.enqueue out_port queue_id]

/-- `process_packet_in`: ignore non-NO_MATCH reasons; extract the flow;
choose a destination; build actions from `get_queue_id(sw, in_port)`;
install a flow (flow-mod first, then a packet-out if the datapath did not
buffer the packet and there are actions), or else send a lone packet-out
when there is a buffer or a non-empty action list. -/
def process_packet_in (sw : Lswitch) (pi : PacketInMsg) :
    Lswitch × List OutMsg :=
  if pi.reason ≠ OFPR_NO_MATCH then (sw, [])
  else
    let flow := packet_in_flow pi
    let res := lswitch_choose_destination sw flow
    let sw1 := res.1
    let out_port := res.2
    let queue_id := get_queue_id sw1 pi.in_port
    let actions := lswitch_actions out_port queue_id
    if 0 ≤ sw1.max_idle ∧ (sw1.ml = none ∨ out_port ≠ OFPP_FLOOD) then
      let fmod := OutMsg.flowMod flow pi.buffer_id sw1.max_idle sw1.wildcards
        actions
      if pi.buffer_id = UINT32_MAX ∧ actions ≠ [] then
        (sw1, [fmod, OutMsg.packetOut
          { buffer_id := UINT32_MAX, in_port := pi.in_port,
            actions := actions, packet := pi.data }])
      else
        (sw1, [fmod])
    else
      if pi.buffer_id ≠ UINT32_MAX ∨ actions ≠ [] then
        (sw1, [OutMsg.packetOut
          { buffer_id := pi.buffer_id, in_port := pi.in_port,
            actions := actions, packet := pi.data }])
      else
        (sw1, [])

/-- `process_echo_request`: `make_echo_reply` echoes the request's xid and
payload. -/
def process_echo_request (sw : Lswitch) (xid : Nat) (payload : List Nat) :
    Lswitch × List OutMsg :=
  (sw, [OutMsg.echoReply xid payload])

/-- Modelled from the spec: `check_ofp_message_array` of `ofp-util.c` is
not under `src/`; the check passes exactly when the message length is the
fixed `ofp_switch_features` prefix plus a whole number of `ofp_phy_port`
records, and then reports that number of ports. -/
def check_ofp_message_array (size n_ports : Nat) : Bool :=
  size = OFP_SWITCH_FEATURES_SIZE + OFP_PHY_PORT_SIZE * n_ports

/-- One iteration of the port loop of `process_switch_features`:
`shash_find_data` on the port's name, and if the binding exists with a
null `hmap_node`, fill in `port_no` and insert it into the by-number
index. -/
def resolve_port (bindings : List LswitchPort) (name : String)
    (port_no : Nat) : List LswitchPort :=
  match bindings with
  | [] => []
  | b :: rest =>
      if b.name = name then
        (if b.port_no = none then { b with port_no := some port_no } else b)
          :: rest
      else
        b :: resolve_port rest name port_no

/-- `process_switch_features`: drop the message when the array check
fails; otherwise set `datapath_id` from the reply and resolve the queue
binding named by each listed port.  Emits nothing. -/
def process_switch_features (sw : Lswitch) (size : Nat)
    (fr : FeaturesReplyMsg) : Lswitch :=
  if check_ofp_message_array size fr.ports.length then
    { sw with
      datapath_id := fr.datapath_id
      queue_names := fr.ports.foldl
        (fun bs p => resolve_port bs p.2 p.1) sw.queue_names }
  else
    sw

/-- `lswitch_process_packet`: the UNKNOWN-state resend guard, then the
dispatch table `(type, min_size, handler)` with its length check; the
`flow_removed` row has a null handler and every unlisted type is ignored. -/
def lswitch_process_packet (sw : Lswitch) (now : Int) (msg : InMsg) :
    Lswitch × List OutMsg :=
  if sw.datapath_id = 0 ∧ exempt_from_unknown_guard msg = false then
    send_features_request sw now
  else
    match msg with
    | .echoRequest size xid payload =>
        if size < OFP_HEADER_SIZE then (sw, [])
        else process_echo_request sw xid payload
    | .featuresReply size fr =>
        if size < OFP_SWITCH_FEATURES_SIZE then (sw, [])
        else (process_switch_features sw size fr, [])
    | .packetIn size pi =>
        if size < OFP_PACKET_IN_DATA_OFFSET then (sw, [])
        else process_packet_in sw pi
    | .flowRemoved size =>
        if size < OFP_FLOW_REMOVED_SIZE then (sw, [])
        else (sw, [])
    | .other _ _ => (sw, [])

/-- The message kinds a session in state UNKNOWN is allowed to emit
according to the spec: features-request, set-config, echo-reply. -/
def allowed_in_unknown : OutMsg → Bool
  | .featuresRequest => true
  | .setConfig _ => true
  | .echoReply _ _ => true
  | _ => false

/-- Whether a message list contains a flow-mod. -/
def containsFlowMod (outs : List OutMsg) : Bool :=
  outs.any (fun m => match m with
    | .flowMod _ _ _ _ _ => true
    | _ => false)

/-- The action list carried by an outbound message (empty for the
action-less kinds). -/
def msgActions : OutMsg → List OfpAction
  | .flowMod _ _ _ _ actions => actions
  | .packetOut po => po.actions
  | _ => []

/-- Whether a message's size is below the dispatch table's minimum for its
type (`other` types have no row, hence no minimum). -/
def below_min_size : InMsg → Bool
  | .echoRequest size _ _ => size < OFP_HEADER_SIZE
  | .featuresReply size _ => size < OFP_SWITCH_FEATURES_SIZE
  | .packetIn size _ => size < OFP_PACKET_IN_DATA_OFFSET
  | .flowRemoved size => size < OFP_FLOW_REMOVED_SIZE
  | .other _ _ => false

/-! Concrete fixtures used by witnesses and counterexamples. -/

/-- A unicast station address. -/
def addrA : EthAddr := ⟨0x00, 0x11, 0x22, 0x33, 0x44, 0x55⟩

/-- Another unicast station address. -/
def addrB : EthAddr := ⟨0x66, 0x77, 0x88, 0x99, 0xaa, 0xbb⟩

/-- A multicast address outside the reserved 01:80:C2 range. -/
def addrMcast : EthAddr := ⟨0x33, 0x33, 0x00, 0x00, 0x00, 0x01⟩

/-- The base of the IEEE 802.1D reserved multicast range. -/
def addrReserved : EthAddr := ⟨0x01, 0x80, 0xc2, 0x00, 0x00, 0x00⟩

/-- A learn-mode configuration with a 60 second idle timeout. -/
def cfgLearn : LswitchConfig :=
  { mode := LswMode.learn, max_idle := 60, exact_flows := false,
    default_queue := UINT32_MAX, port_queues := [], default_flows := [] }

/-- The same configuration in normal mode. -/
def cfgNormal : LswitchConfig := { cfgLearn with mode := LswMode.normal }

/-- The same configuration in hub mode. -/
def cfgHub : LswitchConfig := { cfgLearn with mode := LswMode.hub }

/-- A freshly created learn-mode session (datapath id still 0). -/
def swLearn0 : Lswitch := (lswitch_create 0 cfgLearn).1

/-- The learn-mode session once a datapath id is known. -/
def swLearnK : Lswitch := { swLearn0 with datapath_id := 5 }

/-- A normal-mode session with a known datapath id. -/
def swNormalK : Lswitch :=
  { (lswitch_create 0 cfgNormal).1 with datapath_id := 5 }

/-- A hub-mode session with a known datapath id. -/
def swHubK : Lswitch :=
  { (lswitch_create 0 cfgHub).1 with datapath_id := 5 }

/-- A NO_MATCH packet-in for a reserved multicast destination with no
datapath buffer. -/
def piReserved : PacketInMsg :=
  { buffer_id := UINT32_MAX, in_port := 1, reason := 0, pkt_src := addrA,
    pkt_dst := addrReserved, data := [1, 2, 3] }

/-- A NO_MATCH packet-in between two unicast stations with no buffer. -/
def piPlain : PacketInMsg :=
  { buffer_id := UINT32_MAX, in_port := 1, reason := 0, pkt_src := addrA,
    pkt_dst := addrB, data := [] }

/-- A pre-serialised flow-mod used as a configured default flow. -/
def flowModDefault : OutMsg := OutMsg.flowMod ⟨0, addrA, addrB⟩ 0 0 0 []

/-- A learn-mode configuration whose default flows hold one flow-mod. -/
def cfgDefaultFlows : LswitchConfig :=
  { cfgLearn with default_flows := [flowModDefault] }

/-- A configuration binding two distinct port names to queues. -/
def cfgTwoNames : LswitchConfig :=
  { cfgLearn with port_queues := [("a", 1), ("b", 2)] }

/-- The session created from `cfgTwoNames`. -/
def swTwoNames : Lswitch := (lswitch_create 0 cfgTwoNames).1

/-- A features-reply listing both configured names with the same port
number. -/
def frSamePort : FeaturesReplyMsg :=
  { datapath_id := 7, ports := [(5, "a"), (5, "b")] }

/-- `swTwoNames` after processing `frSamePort` (its size, 32 + 48 * 2,
passes the array check). -/
def swTwoResolved : Lswitch := process_switch_features swTwoNames 128 frSamePort

/-- A configuration with one port-name queue binding and default queue 3. -/
def cfgQueue : LswitchConfig :=
  { cfgLearn with port_queues := [("eth0", 7)], default_queue := 3 }

/-- The session created from `cfgQueue` with a known datapath id. -/
def swQueue : Lswitch :=
  { (lswitch_create 0 cfgQueue).1 with datapath_id := 9 }

/-- A features-reply that passes the array check and carries datapath id
zero. -/
def frZeroDpid : FeaturesReplyMsg :=
  { datapath_id := 0, ports := [(5, "eth0")] }

/-! Helper lemmas. -/

/-- Learning only touches the `ml` field of the session. -/
theorem lswitch_learn_max_idle (sw : Lswitch) (f : FlowKey) :
    (lswitch_learn sw f).max_idle = sw.max_idle := by
  unfold lswitch_learn
  cases sw.ml <;> rfl

/-- Learning preserves the wildcard mask. -/
theorem lswitch_learn_wildcards (sw : Lswitch) (f : FlowKey) :
    (lswitch_learn sw f).wildcards = sw.wildcards := by
  unfold lswitch_learn
  cases sw.ml <;> rfl

/-- Learning preserves the queue bindings. -/
theorem lswitch_learn_queue_names (sw : Lswitch) (f : FlowKey) :
    (lswitch_learn sw f).queue_names = sw.queue_names := by
  unfold lswitch_learn
  cases sw.ml <;> rfl

/-- Learning preserves the default queue. -/
theorem lswitch_learn_default_queue (sw : Lswitch) (f : FlowKey) :
    (lswitch_learn sw f).default_queue = sw.default_queue := by
  unfold lswitch_learn
  cases sw.ml <;> rfl

/-- Learning preserves presence or absence of the MAC table. -/
theorem lswitch_learn_ml_none (sw : Lswitch) (f : FlowKey) :
    ((lswitch_learn sw f).ml = none ↔ sw.ml = none) := by
  unfold lswitch_learn
  cases h : sw.ml <;> simp [h]

/-- The session returned by `lswitch_choose_destination` is the session
after the learning step, whichever branch produced the port. -/
theorem lswitch_choose_destination_fst (sw : Lswitch) (f : FlowKey) :
    (lswitch_choose_destination sw f).1 = lswitch_learn sw f := by
  unfold lswitch_choose_destination
  dsimp only []
  split
  · rfl
  · split
    · rfl
    · split <;> rfl

/-- `get_queue_id` reads only queue state, which learning preserves. -/
theorem get_queue_id_learn (sw : Lswitch) (f : FlowKey) (p : Nat) :
    get_queue_id (lswitch_learn sw f) p = get_queue_id sw p := by
  unfold get_queue_id
  rw [lswitch_learn_queue_names, lswitch_learn_default_queue]

/-- A reserved multicast destination is dropped before any lookup. -/
theorem lswitch_choose_destination_reserved (sw : Lswitch) (f : FlowKey)
    (h : eth_addr_is_reserved f.dl_dst = true) :
    (lswitch_choose_destination sw f).2 = OFPP_NONE := by
  unfold lswitch_choose_destination
  simp [h]

/-- After `mac_table_learn_aux`, looking the learned key up returns the
learned port, whatever the prior table contents. -/
theorem mac_table_learn_aux_lookup (ml : MacTable) (src : EthAddr)
    (vlan port : Nat) :
    mac_learning_lookup (mac_table_learn_aux ml src vlan port).1 src vlan =
      (port : Int) := by
  induction ml with
  | nil => simp [mac_table_learn_aux, mac_learning_lookup]
  | cons e rest ih =>
      by_cases h : e.mac = src ∧ e.vlan = vlan
      · simp [mac_table_learn_aux, h, mac_learning_lookup]
      · simp [mac_table_learn_aux, h, mac_learning_lookup, ih]

/-- After learning a unicast, nonzero source, looking it up returns the
port it was learned on. -/
theorem mac_learning_learn_lookup (ml : MacTable) (src : EthAddr)
    (vlan port : Nat) (hmc : eth_addr_is_multicast src = false)
    (hz : eth_addr_is_zero src = false) :
    mac_learning_lookup (mac_learning_learn ml src vlan port).1 src vlan =
      (port : Int) := by
  unfold mac_learning_learn
  simp [hmc, hz, mac_table_learn_aux_lookup]

/-- A non-multicast address is never in the reserved 01:80:C2 range. -/
theorem not_reserved_of_not_multicast (a : EthAddr)
    (h : eth_addr_is_multicast a = false) :
    eth_addr_is_reserved a = false := by
  unfold eth_addr_is_multicast at h
  unfold eth_addr_is_reserved
  simp only [decide_eq_false_iff_not] at h
  simp only [Bool.and_eq_false_iff]
  by_cases hb : a.b0 = 0x01
  · exact absurd (by rw [hb]) h
  · exact Or.inl (Or.inl (Or.inl (Or.inl (Or.inl (by simpa using hb)))))

/-- Characterisation of `process_packet_in` on a NO_MATCH packet-in, with
the fields of the learned session rewritten to those of the original
session (learning only touches the MAC table). -/
theorem process_packet_in_no_match (sw : Lswitch) (pi : PacketInMsg)
    (out_port : Nat) (acts : List OfpAction)
    (h : pi.reason = OFPR_NO_MATCH)
    (hout : (lswitch_choose_destination sw (packet_in_flow pi)).2 = out_port)
    (hacts : lswitch_actions out_port (get_queue_id sw pi.in_port) = acts) :
    process_packet_in sw pi =
      (lswitch_learn sw (packet_in_flow pi),
       if 0 ≤ sw.max_idle ∧ (sw.ml = none ∨ out_port ≠ OFPP_FLOOD) then
         if pi.buffer_id = UINT32_MAX ∧ acts ≠ [] then
           [OutMsg.flowMod (packet_in_flow pi) pi.buffer_id sw.max_idle
              sw.wildcards acts,
            OutMsg.packetOut ⟨UINT32_MAX, pi.in_port, acts, pi.data⟩]
         else
           [OutMsg.flowMod (packet_in_flow pi) pi.buffer_id sw.max_idle
              sw.wildcards acts]
       else if pi.buffer_id ≠ UINT32_MAX ∨ acts ≠ [] then
         [OutMsg.packetOut ⟨pi.buffer_id, pi.in_port, acts, pi.data⟩]
       else []) := by
  subst hout
  subst hacts
  unfold process_packet_in
  rw [if_neg (by simp [h])]
  simp only [lswitch_choose_destination_fst, lswitch_learn_max_idle,
    lswitch_learn_wildcards, lswitch_learn_ml_none, get_queue_id_learn]
  split <;> split <;> rfl

/-- Every message emitted for a packet-in carries exactly the action list
built from the chosen destination and the ingress port's queue. -/
theorem process_packet_in_msg_actions (sw : Lswitch) (pi : PacketInMsg)
    (m : OutMsg) (hm : m ∈ (process_packet_in sw pi).2) :
    msgActions m =
      lswitch_actions (lswitch_choose_destination sw (packet_in_flow pi)).2
        (get_queue_id sw pi.in_port) := by
  by_cases h : pi.reason = OFPR_NO_MATCH
  · rw [process_packet_in_no_match sw pi _ _ h rfl rfl] at hm
    dsimp only at hm
    split at hm
    · split at hm
      · simp only [List.mem_cons, List.not_mem_nil, or_false] at hm
        rcases hm with rfl | rfl <;> rfl
      · simp only [List.mem_singleton] at hm
        subst hm
        rfl
    · split at hm
      · simp only [List.mem_singleton] at hm
        subst hm
        rfl
      · simp at hm
  · simp [process_packet_in, h] at hm

/-- C1 counterexample: the claim quantifies over the messages emitted at
session construction, but `lswitch_create` emits the configured default
flows verbatim; with a flow-mod configured as a default flow, a session
whose datapath_id is 0 emits a flow-mod at construction. -/
theorem C1_counterexample :
    (lswitch_create 0 cfgDefaultFlows).1.datapath_id = 0 ∧
    flowModDefault ∈ (lswitch_create 0 cfgDefaultFlows).2 ∧
    allowed_in_unknown flowModDefault = false := by decide

/-- C1 (amended): aside from the configured default flows, which
construction emits verbatim, a session whose datapath_id is 0 only ever
emits features-request, set-config, and echo-reply — in particular message
processing in that state never emits a flow-mod or packet-out. -/
theorem C1_unknown_state_only_handshake_and_echo :
    (∀ (sw : Lswitch) (now : Int) (msg : InMsg), sw.datapath_id = 0 →
      ∀ m ∈ (lswitch_process_packet sw now msg).2,
        allowed_in_unknown m = true) ∧
    (∀ (now : Int) (cfg : LswitchConfig),
      ∀ m ∈ (lswitch_create now cfg).2,
        allowed_in_unknown m = true ∨ m ∈ cfg.default_flows) := by
  constructor
  · intro sw now msg h m hm
    cases msg with
    | echoRequest size xid payload =>
        by_cases hs : size < OFP_HEADER_SIZE <;>
          simp [lswitch_process_packet, exempt_from_unknown_guard,
            process_echo_request, hs] at hm
        simp [hm, allowed_in_unknown]
    | featuresReply size fr =>
        by_cases hs : size < OFP_SWITCH_FEATURES_SIZE <;>
          simp [lswitch_process_packet, exempt_from_unknown_guard, hs] at hm
    | packetIn size pi =>
        by_cases ht : sw.last_features_request + 1 ≤ now <;>
          simp [lswitch_process_packet, exempt_from_unknown_guard, h,
            send_features_request, ht] at hm
        rcases hm with rfl | rfl <;> rfl
    | flowRemoved size =>
        by_cases ht : sw.last_features_request + 1 ≤ now <;>
          simp [lswitch_process_packet, exempt_from_unknown_guard, h,
            send_features_request, ht] at hm
        rcases hm with rfl | rfl <;> rfl
    | other typ size =>
        by_cases ht : sw.last_features_request + 1 ≤ now <;>
          simp [lswitch_process_packet, exempt_from_unknown_guard, h,
            send_features_request, ht] at hm
        rcases hm with rfl | rfl <;> rfl
  · intro now cfg m hm
    unfold lswitch_create at hm
    dsimp only at hm
    rw [List.mem_append] at hm
    rcases hm with hm | hm
    · left
      unfold send_features_request at hm
      split at hm <;> simp at hm <;> rcases hm with rfl | rfl <;> rfl
    · right
      exact hm

/-- Witness for C1: processing a packet-in in state UNKNOWN, every emitted
message (here the features-request) is of an allowed kind. -/
theorem C1_unknown_state_witness :
    allowed_in_unknown OutMsg.featuresRequest = true :=
  C1_unknown_state_only_handshake_and_echo.1 swLearn0 5
    (InMsg.packetIn 18 piPlain) (by decide) OutMsg.featuresRequest (by decide)

/-- C2: evaluation at the failing input.  In a normal-mode session the MAC
table is absent, so the candidate output port is always FLOOD; the source
guards the NORMAL action with `out_port != OFPP_FLOOD`, so the engine
returns OFPP_FLOOD where the claim (and the comment in the source) expects
OFPP_NORMAL — the NORMAL branch is unreachable in normal mode. -/
theorem C2_normal_mode_returns_flood :
    swNormalK.action_normal = true ∧ swNormalK.ml = none ∧
    (lswitch_choose_destination swNormalK (FlowKey.mk 1 addrA addrB)).2 =
      OFPP_FLOOD ∧ OFPP_FLOOD ≠ OFPP_NORMAL := by decide

/-- C3: a NO_MATCH packet-in dispatched to a session with a known datapath
id emits a flow-mod iff `max_idle` is non-negative and (the MAC table is
absent — the source's encoding of "mode is not learn", cf.
`lswitch_create` — or the chosen output port is not FLOOD); every emitted
flow-mod carries the session's wildcard mask and its idle timeout. -/
theorem C3_flow_mod_install_iff (sw : Lswitch) (now : Int) (size : Nat)
    (pi : PacketInMsg) (hdp : sw.datapath_id ≠ 0)
    (hsz : OFP_PACKET_IN_DATA_OFFSET ≤ size)
    (hr : pi.reason = OFPR_NO_MATCH) :
    (containsFlowMod
        (lswitch_process_packet sw now (InMsg.packetIn size pi)).2 = true ↔
      (0 ≤ sw.max_idle ∧ (sw.ml = none ∨
        (lswitch_choose_destination sw (packet_in_flow pi)).2 ≠ OFPP_FLOOD))) ∧
    (∀ (f : FlowKey) (b : Nat) (i : Int) (w : Nat) (a : List OfpAction),
      OutMsg.flowMod f b i w a ∈
          (lswitch_process_packet sw now (InMsg.packetIn size pi)).2 →
        w = sw.wildcards ∧ i = sw.max_idle) := by
  have hd : lswitch_process_packet sw now (InMsg.packetIn size pi) =
      process_packet_in sw pi := by
    unfold lswitch_process_packet
    rw [if_neg (by simp [hdp])]
    dsimp only
    rw [if_neg (Nat.not_lt.mpr hsz)]
  rw [hd, process_packet_in_no_match sw pi _ _ hr rfl rfl]
  dsimp only
  constructor
  · by_cases hcond : 0 ≤ sw.max_idle ∧ (sw.ml = none ∨
        (lswitch_choose_destination sw (packet_in_flow pi)).2 ≠ OFPP_FLOOD)
    · rw [if_pos hcond]
      refine ⟨fun _ => hcond, fun _ => ?_⟩
      split <;> simp [containsFlowMod]
    · rw [if_neg hcond]
      constructor
      · intro hc
        exfalso
        revert hc
        split <;> simp [containsFlowMod]
      · intro hcc
        exact absurd hcc hcond
  · intro f b i w a hmem
    split at hmem
    · split at hmem <;>
        simp only [List.mem_cons, List.mem_singleton, List.not_mem_nil,
          or_false, OutMsg.flowMod.injEq, reduceCtorEq] at hmem
      · obtain ⟨-, -, hi, hw, -⟩ := hmem
        exact ⟨hw, hi⟩
      · obtain ⟨-, -, hi, hw, -⟩ := hmem
        exact ⟨hw, hi⟩
    · split at hmem <;>
        simp only [List.mem_singleton, List.not_mem_nil, reduceCtorEq]
          at hmem

/-- Witness for C3: a hub-mode session (no MAC table) with non-negative
idle timeout installs a flow for a plain packet-in. -/
theorem C3_flow_mod_install_iff_witness :
    containsFlowMod
      (lswitch_process_packet swHubK 5 (InMsg.packetIn 18 piPlain)).2 = true :=
  (C3_flow_mod_install_iff swHubK 5 18 piPlain (by decide) (by decide)
    (by decide)).1.mpr (by decide)

/-- C4 counterexample: a learn-mode session with `max_idle = 60` and a
known datapath id, given a NO_MATCH packet-in for the reserved destination
01:80:C2:00:00:00 with `buffer_id = NONE`, emits a flow-mod (a drop flow
with an empty action list) — not "no outbound message at all": the install
condition `max_idle >= 0 && (!ml || out_port != FLOOD)` holds because
OFPP_NONE differs from OFPP_FLOOD. -/
theorem C4_counterexample :
    (lswitch_process_packet swLearnK 5 (InMsg.packetIn 18 piReserved)).2 =
      [OutMsg.flowMod (packet_in_flow piReserved) UINT32_MAX 60
        LSWITCH_DEFAULT_WILDCARDS []] ∧
    (lswitch_process_packet swLearnK 5 (InMsg.packetIn 18 piReserved)).2 ≠
      [] := by decide

/-- C4 (amended): for a NO_MATCH packet-in whose destination is in the
reserved multicast range and whose buffer id is NONE, the action list is
empty and no packet-out is emitted; nothing at all is emitted when
`max_idle` is negative, while a non-negative `max_idle` emits exactly one
flow-mod with an empty action list (a drop flow). -/
theorem C4_reserved_multicast_drop (sw : Lswitch) (now : Int) (size : Nat)
    (pi : PacketInMsg) (hdp : sw.datapath_id ≠ 0)
    (hsz : OFP_PACKET_IN_DATA_OFFSET ≤ size)
    (hr : pi.reason = OFPR_NO_MATCH)
    (hres : eth_addr_is_reserved pi.pkt_dst = true)
    (hbuf : pi.buffer_id = UINT32_MAX) :
    (lswitch_process_packet sw now (InMsg.packetIn size pi)).2 =
      if 0 ≤ sw.max_idle then
        [OutMsg.flowMod (packet_in_flow pi) pi.buffer_id sw.max_idle
          sw.wildcards []]
      else [] := by
  have hd : lswitch_process_packet sw now (InMsg.packetIn size pi) =
      process_packet_in sw pi := by
    unfold lswitch_process_packet
    rw [if_neg (by simp [hdp])]
    dsimp only
    rw [if_neg (Nat.not_lt.mpr hsz)]
  have hout : (lswitch_choose_destination sw (packet_in_flow pi)).2 =
      OFPP_NONE :=
    lswitch_choose_destination_reserved sw (packet_in_flow pi) hres
  have hacts : lswitch_actions OFPP_NONE (get_queue_id sw pi.in_port) = [] :=
    by simp [lswitch_actions]
  rw [hd, process_packet_in_no_match sw pi OFPP_NONE [] hr hout hacts]
  dsimp only
  by_cases hidle : 0 ≤ sw.max_idle
  · rw [if_pos ⟨hidle, Or.inr (by decide)⟩, if_pos hidle,
      if_neg (by simp)]
  · rw [if_neg (fun hc => hidle hc.1), if_neg hidle,
      if_neg (by simp [hbuf])]

/-- Witness for C4 (amended): the learn-mode session with `max_idle = 60`
emits exactly the drop flow-mod for the reserved destination. -/
theorem C4_reserved_multicast_drop_witness :
    (lswitch_process_packet swLearnK 5 (InMsg.packetIn 18 piReserved)).2 =
      if 0 ≤ swLearnK.max_idle then
        [OutMsg.flowMod (packet_in_flow piReserved) piReserved.buffer_id
          swLearnK.max_idle swLearnK.wildcards []]
      else [] :=
  C4_reserved_multicast_drop swLearnK 5 18 piReserved (by decide) (by decide)
    (by decide) (by decide) (by decide)

/-- C5 counterexample: on a learn-mode session, a flow whose source equals
its destination but is a (non-reserved) multicast address is never
learned — the spec's `learn` refuses multicast sources — so the lookup
misses and the engine returns FLOOD, not NONE. -/
theorem C5_counterexample :
    swLearnK.ml = some mac_learning_create ∧
    (lswitch_choose_destination swLearnK
      (FlowKey.mk 1 addrMcast addrMcast)).2 = OFPP_FLOOD ∧
    OFPP_FLOOD ≠ OFPP_NONE := by decide

/-- C5 (amended): on a learn-mode session, for a flow whose source equals
its destination and whose source is learnable (unicast and nonzero), the
engine returns NONE: the source is learned on the ingress port, the
destination lookup then finds the ingress port, and split horizon fires. -/
theorem C5_split_horizon_self (sw : Lswitch) (f : FlowKey) (ml : MacTable)
    (hml : sw.ml = some ml) (heq : f.dl_src = f.dl_dst)
    (hmc : eth_addr_is_multicast f.dl_src = false)
    (hz : eth_addr_is_zero f.dl_src = false) :
    (lswitch_choose_destination sw f).2 = OFPP_NONE := by
  have hres : eth_addr_is_reserved f.dl_dst = false := by
    rw [← heq]
    exact not_reserved_of_not_multicast f.dl_src hmc
  have hlearned : (lswitch_learn sw f).ml =
      some (mac_learning_learn ml f.dl_src 0 f.in_port).1 := by
    unfold lswitch_learn
    rw [hml]
  have hlook : mac_learning_lookup
      (mac_learning_learn ml f.dl_src 0 f.in_port).1 f.dl_dst 0 =
      (f.in_port : Int) := by
    rw [← heq]
    exact mac_learning_learn_lookup ml f.dl_src 0 f.in_port hmc hz
  unfold lswitch_choose_destination
  rw [if_neg (by simp [hres])]
  dsimp only
  rw [hlearned]
  dsimp only
  rw [hlook]
  rw [if_pos (by positivity)]
  rw [if_pos (by simp)]

/-- Witness for C5 (amended): a unicast flow with equal source and
destination on the learn session yields NONE. -/
theorem C5_split_horizon_self_witness :
    (lswitch_choose_destination swLearnK (FlowKey.mk 1 addrA addrA)).2 =
      OFPP_NONE :=
  C5_split_horizon_self swLearnK (FlowKey.mk 1 addrA addrA)
    mac_learning_create (by decide) (by decide) (by decide) (by decide)

/-- C6: every message emitted for a packet-in carries exactly the action
list of the claim's case split: empty when the chosen port is NONE; a
single OUTPUT when the queue is NONE (`UINT32_MAX`) or the port is at or
above OFPP_MAX; otherwise a single ENQUEUE of the port and queue. -/
theorem C6_action_list_shape (sw : Lswitch) (pi : PacketInMsg) (m : OutMsg)
    (hm : m ∈ (process_packet_in sw pi).2) :
    msgActions m =
      (if (lswitch_choose_destination sw (packet_in_flow pi)).2 = OFPP_NONE
       then []
       else if get_queue_id sw pi.in_port = UINT32_MAX ∨
           OFPP_MAX ≤ (lswitch_choose_destination sw (packet_in_flow pi)).2
       then [OfpAction.output
              (lswitch_choose_destination sw (packet_in_flow pi)).2]
       else [OfpAction.enqueue
              (lswitch_choose_destination sw (packet_in_flow pi)).2
              (get_queue_id sw pi.in_port)]) := by
  rw [process_packet_in_msg_actions sw pi m hm]
  rfl

/-- Witness for C6: the flow-mod emitted for a plain packet-in on the
hub-mode session carries the single OUTPUT action of the case split. -/
theorem C6_action_list_shape_witness :
    msgActions (OutMsg.flowMod (packet_in_flow piPlain) UINT32_MAX 60
        LSWITCH_DEFAULT_WILDCARDS [OfpAction.output OFPP_FLOOD]) =
      (if (lswitch_choose_destination swHubK (packet_in_flow piPlain)).2 =
          OFPP_NONE
       then []
       else if get_queue_id swHubK piPlain.in_port = UINT32_MAX ∨
           OFPP_MAX ≤ (lswitch_choose_destination swHubK
             (packet_in_flow piPlain)).2
       then [OfpAction.output
              (lswitch_choose_destination swHubK (packet_in_flow piPlain)).2]
       else [OfpAction.enqueue
              (lswitch_choose_destination swHubK (packet_in_flow piPlain)).2
              (get_queue_id swHubK piPlain.in_port)]) :=
  C6_action_list_shape swHubK piPlain
    (OutMsg.flowMod (packet_in_flow piPlain) UINT32_MAX 60
      LSWITCH_DEFAULT_WILDCARDS [OfpAction.output OFPP_FLOOD]) (by decide)

/-- C7: the queue id used by every message emitted for a packet-in is
resolved from the packet-in's ingress port (`get_queue_id sw pi.in_port`,
not the chosen egress port), and `get_queue_id` falls back to the
session's default queue whenever no binding is resolved to that port
number. -/
theorem C7_queue_from_ingress :
    (∀ (sw : Lswitch) (p : Nat),
      (∀ b ∈ sw.queue_names, b.port_no ≠ some p) →
      get_queue_id sw p = sw.default_queue) ∧
    (∀ (sw : Lswitch) (pi : PacketInMsg) (m : OutMsg),
      m ∈ (process_packet_in sw pi).2 →
      msgActions m =
        lswitch_actions (lswitch_choose_destination sw (packet_in_flow pi)).2
          (get_queue_id sw pi.in_port)) := by
  constructor
  · intro sw p h
    unfold get_queue_id
    rw [List.find?_eq_none.mpr]
    intro b hb
    simpa using h b hb
  · intro sw pi m hm
    exact process_packet_in_msg_actions sw pi m hm

/-- Witness for C7: on the session with an unresolved binding, a port with
no resolved binding maps to the default queue. -/
theorem C7_queue_from_ingress_witness :
    get_queue_id swQueue 5 = swQueue.default_queue :=
  C7_queue_from_ingress.1 swQueue 5 (by decide)

/-- C8 counterexample: from the session configured with names "a" and "b",
a single features-reply listing both names with port number 5 resolves
both bindings to the same port number, so the by-port-number index holds
two distinct bindings with equal `port_no`. -/
theorem C8_counterexample :
    queue_numbers swTwoResolved =
      [{ name := "a", queue_id := 1, port_no := some 5 },
       { name := "b", queue_id := 2, port_no := some 5 }] ∧
    ({ name := "a", queue_id := 1, port_no := some 5 } : LswitchPort) ≠
      { name := "b", queue_id := 2, port_no := some 5 } ∧
    LswitchPort.port_no { name := "a", queue_id := 1, port_no := some 5 } =
      LswitchPort.port_no { name := "b", queue_id := 2, port_no := some 5 } :=
  by decide

/-- Resolving a port never changes the sequence of binding names. -/
theorem resolve_port_names (bindings : List LswitchPort) (name : String)
    (port_no : Nat) :
    (resolve_port bindings name port_no).map LswitchPort.name =
      bindings.map LswitchPort.name := by
  induction bindings with
  | nil => rfl
  | cons b rest ih =>
      unfold resolve_port
      by_cases h : b.name = name
      · rw [if_pos h]
        by_cases hp : b.port_no = none <;> simp [hp]
      · rw [if_neg h]
        simp [ih]

/-- The port loop of `process_switch_features` never changes the sequence
of binding names. -/
theorem resolve_fold_names (ports : List (Nat × String))
    (bindings : List LswitchPort) :
    ((ports.foldl (fun bs p => resolve_port bs p.2 p.1) bindings).map
        LswitchPort.name) =
      bindings.map LswitchPort.name := by
  induction ports generalizing bindings with
  | nil => rfl
  | cons p rest ih =>
      rw [List.foldl_cons, ih, resolve_port_names]

/-- C8 (amended): distinct queue bindings in the by-port-number index have
distinct names, not necessarily distinct port numbers: name-distinctness
is established by `lswitch_create` from a uniquely-named configuration and
preserved by every features-reply, and it carries over to the index, which
is a sublist of the bindings. -/
theorem C8_distinct_names_invariant :
    (∀ (now : Int) (cfg : LswitchConfig),
      (cfg.port_queues.map Prod.fst).Nodup →
      ((lswitch_create now cfg).1.queue_names.map LswitchPort.name).Nodup) ∧
    (∀ (sw : Lswitch) (size : Nat) (fr : FeaturesReplyMsg),
      (sw.queue_names.map LswitchPort.name).Nodup →
      ((process_switch_features sw size fr).queue_names.map
          LswitchPort.name).Nodup ∧
      ((queue_numbers (process_switch_features sw size fr)).map
          LswitchPort.name).Nodup) := by
  constructor
  · intro now cfg h
    unfold lswitch_create send_features_request
    split <;> simpa [List.map_map, Function.comp] using h
  · intro sw size fr h
    have hnames : ((process_switch_features sw size fr).queue_names.map
        LswitchPort.name) = sw.queue_names.map LswitchPort.name := by
      unfold process_switch_features
      split
      · exact resolve_fold_names fr.ports sw.queue_names
      · rfl
    refine ⟨hnames ▸ h, ?_⟩
    have hsub : (queue_numbers (process_switch_features sw size fr)).map
        LswitchPort.name |>.Sublist
        ((process_switch_features sw size fr).queue_names.map
          LswitchPort.name) :=
      List.Sublist.map LswitchPort.name (List.filter_sublist _)
    exact List.Nodup.sublist hsub (hnames ▸ h)

/-- Witness for C8 (amended): after the duplicate-port features-reply the
index still has pairwise-distinct names. -/
theorem C8_distinct_names_invariant_witness :
    ((queue_numbers (process_switch_features swTwoNames 128 frSamePort)).map
        LswitchPort.name).Nodup :=
  (C8_distinct_names_invariant.2 swTwoNames 128 frSamePort (by decide)).2

/-- C9: an inbound message of a dispatched type whose size is below the
type's declared minimum is dropped with no state change and no output —
provided the UNKNOWN-state resend guard does not fire first, i.e. the
datapath id is known or the type is echo-request or features-reply. -/
theorem C9_short_message_dropped (sw : Lswitch) (now : Int) (msg : InMsg)
    (hshort : below_min_size msg = true)
    (hguard : sw.datapath_id ≠ 0 ∨ exempt_from_unknown_guard msg = true) :
    lswitch_process_packet sw now msg = (sw, []) := by
  cases msg with
  | echoRequest size xid payload =>
      simp only [below_min_size, decide_eq_true_eq] at hshort
      unfold lswitch_process_packet
      rw [if_neg (by simp [exempt_from_unknown_guard])]
      dsimp only
      rw [if_pos hshort]
  | featuresReply size fr =>
      simp only [below_min_size, decide_eq_true_eq] at hshort
      unfold lswitch_process_packet
      rw [if_neg (by simp [exempt_from_unknown_guard])]
      dsimp only
      rw [if_pos hshort]
  | packetIn size pi =>
      simp only [below_min_size, decide_eq_true_eq] at hshort
      have hdp : sw.datapath_id ≠ 0 := by
        rcases hguard with h | h
        · exact h
        · simp [exempt_from_unknown_guard] at h
      unfold lswitch_process_packet
      rw [if_neg (by simp [exempt_from_unknown_guard, hdp])]
      dsimp only
      rw [if_pos hshort]
  | flowRemoved size =>
      simp only [below_min_size, decide_eq_true_eq] at hshort
      have hdp : sw.datapath_id ≠ 0 := by
        rcases hguard with h | h
        · exact h
        · simp [exempt_from_unknown_guard] at h
      unfold lswitch_process_packet
      rw [if_neg (by simp [exempt_from_unknown_guard, hdp])]
      dsimp only
      rw [if_pos hshort]
  | other typ size =>
      simp [below_min_size] at hshort

/-- Witness for C9: a 10-byte packet-in on a session with a known datapath
id is dropped outright. -/
theorem C9_short_message_dropped_witness :
    lswitch_process_packet swLearnK 0 (InMsg.packetIn 10 piPlain) =
      (swLearnK, []) :=
  C9_short_message_dropped swLearnK 0 (InMsg.packetIn 10 piPlain)
    (by decide) (Or.inl (by decide))

/-- C10: a features-reply that passes the array check and carries datapath
id 0 still overwrites the session's datapath id with 0 — the session stays
in state UNKNOWN — yet the queue bindings it resolves are exactly those
resolved for any other datapath id: resolution does not depend on the
datapath id. -/
theorem C10_resolution_ignores_datapath_id (sw : Lswitch) (size : Nat)
    (fr : FeaturesReplyMsg)
    (hchk : check_ofp_message_array size fr.ports.length = true)
    (hdp : fr.datapath_id = 0) :
    (process_switch_features sw size fr).datapath_id = 0 ∧
    ∀ d : Nat,
      (process_switch_features sw size
          { fr with datapath_id := d }).queue_names =
        (process_switch_features sw size fr).queue_names := by
  constructor
  · simp [process_switch_features, hchk, hdp]
  · intro d
    simp [process_switch_features, hchk]

/-- Witness for C10: the zero-datapath-id features-reply leaves the
session in state UNKNOWN while still resolving its binding. -/
theorem C10_resolution_ignores_datapath_id_witness :
    (process_switch_features swQueue 80 frZeroDpid).datapath_id = 0 :=
  (C10_resolution_ignores_datapath_id swQueue 80 frZeroDpid (by decide)
    (by decide)).1
